import Mathlib

/-!
Shallow embedding of `sqlite-pool` (src/src/index.ts) and proofs about it.

The layer under verification wraps a synchronous sqlite driver in a bounded
connection pool and adds: one-shot queries, streamed queries, transactions
with BEGIN/COMMIT/ROLLBACK, an optional audit callback invoked on query
dispatch, and a release-timeout hook that aborts and discards a leased
connection.  We model each operation as a pure function producing the list
of boundary events it performs (pool acquire/release, audit-callback
invocations, driver dispatches, yielded rows) together with its outcome.
The driver is an arbitrary function from queries to a result or an error.
-/

namespace SqlitePool

/-- A parameterized SQL statement: template text plus ordered values.
Immutable; the layer only forwards it and formats it for auditing. -/
structure SQLQuery where
  text : String
  values : List Int
deriving DecidableEq, Repr

/-- A result row.  Row contents are opaque to this layer. -/
abbrev Row := List Int

/-- Error values are carried as messages, matching `new Error(msg)`. -/
abbrev Err := String

/-- The BEGIN statement issued internally by `tx` (index.ts line 158). -/
def qBEGIN : SQLQuery := ⟨"BEGIN", []⟩

/-- The COMMIT statement issued internally by `tx` (index.ts line 168). -/
def qCOMMIT : SQLQuery := ⟨"COMMIT", []⟩

/-- The ROLLBACK statement issued internally by `tx` (index.ts line 172). -/
def qROLLBACK : SQLQuery := ⟨"ROLLBACK", []⟩

/-- Observable events at the layer boundary, in program order. -/
inductive Event where
  /-- the pool's getConnection resolved: a connection was borrowed -/
  | acquire
  /-- the onQuery audit callback was invoked with the formatted query -/
  | audit (q : SQLQuery)
  /-- a statement was sent to the raw driver connection -/
  | dispatch (q : SQLQuery)
  /-- a row was yielded to the consumer of a stream -/
  | yield (r : Row)
  /-- poolConnection.release() returned the connection to the pool -/
  | release
deriving DecidableEq, Repr

/-- Whether an event is an audit-callback invocation. -/
def Event.isAudit : Event → Bool
  | .audit _ => true
  | _ => false

/-- Whether an event is a driver dispatch. -/
def Event.isDispatch : Event → Bool
  | .dispatch _ => true
  | _ => false

/-- The synchronous driver for `query` calls: each statement either returns
an ordered list of rows or raises an error. -/
abbrev Driver := SQLQuery → Except Err (List Row)

/-- Embeds DatabaseConnectionImplementation.query (index.ts lines 138-147):
acquire a pool connection; inside try: invoke the audit hook, dispatch the
query to the driver connection; in finally: release.  The trace is the same
whether the driver succeeds or fails, because release sits in finally. -/
def oneShotQuery (driver : Driver) (q : SQLQuery) :
    List Event × Except Err (List Row) :=
  match driver q with
  | .ok rows => ([.acquire, .audit q, .dispatch q, .release], .ok rows)
  | .error e => ([.acquire, .audit q, .dispatch q, .release], .error e)

/-- How the consumer's iteration of a pool-level stream ends: all rows
consumed; consumer breaks (iterator closed) after k rows; or an error
abandons iteration after k rows. -/
inductive ExitMode where
  | exhausted
  | earlyClose (k : Nat)
  | errorAt (k : Nat)
deriving DecidableEq, Repr

/-- Rows the consumer observed before the iteration ended. -/
def consumed (rows : List Row) : ExitMode → List Row
  | .exhausted => rows
  | .earlyClose k => rows.take k
  | .errorAt k => rows.take k

/-- Embeds DatabaseConnectionImplementation.queryStream (lines 149-152)
composed with the module-level queryStream generator (lines 68-82): the
method invokes the audit hook and starts the pool acquisition eagerly; the
generator awaits the connection, dispatches the driver's row stream, yields
rows inside try, and releases in finally, so the release event follows the
yields on every exit path. -/
def poolQueryStream (q : SQLQuery) (rows : List Row) (mode : ExitMode) :
    List Event × List Row :=
  ([Event.audit q, Event.acquire, Event.dispatch q]
      ++ (consumed rows mode).map Event.yield ++ [Event.release],
   consumed rows mode)

theorem consumed_map_yield_count_release (rows : List Row) (mode : ExitMode) :
    ((consumed rows mode).map Event.yield).count Event.release = 0 := by
  rw [List.count_eq_zero]
  intro h
  rcases List.mem_map.mp h with ⟨r, _, hr⟩
  cases hr

/-- C6: for every pool-level streamed query, whatever the exit path of the
iteration (rows exhausted, consumer closing early after k rows, or an error
after k rows), the borrowed connection is released back to the pool exactly
once: the trace contains exactly one release event. -/
theorem poolQueryStream_release_once (q : SQLQuery) (rows : List Row)
    (mode : ExitMode) :
    ((poolQueryStream q rows mode).1).count Event.release = 1 := by
  simp [poolQueryStream, List.count_append,
    consumed_map_yield_count_release, List.count_cons, List.count_singleton,
    Event.release]

/-- C8: a one-shot query acquires a connection, audits the query, dispatches
it, releases the connection (the trace is identical on driver success and
failure, so release is guaranteed), and returns exactly the driver's result:
the ordered row list on success, the driver's failure unchanged on error. -/
theorem oneShotQuery_spec (driver : Driver) (q : SQLQuery) :
    (oneShotQuery driver q).1
        = [Event.acquire, Event.audit q, Event.dispatch q, Event.release]
      ∧ (oneShotQuery driver q).2 = driver q := by
  cases h : driver q <;> simp [oneShotQuery, h]

/-- Embeds the TransactionImplementation state (index.ts lines 44-52): the
transaction-scoped interface holds the borrowed connection and a mutable
aborted flag, initialised to false in the constructor. -/
structure TransactionImplementation where
  aborted : Bool := false
deriving DecidableEq, Repr

/-- Embeds TransactionImplementation.query (lines 54-60): if the aborted
flag is set, throw "Transaction aborted" before doing anything else;
otherwise invoke the audit hook, then dispatch on the transaction's own
connection and return the driver's result. -/
def TransactionImplementation.query (t : TransactionImplementation)
    (driver : Driver) (q : SQLQuery) : List Event × Except Err (List Row) :=
  if t.aborted then ([], .error "Transaction aborted")
  else
    match driver q with
    | .ok rows => ([.audit q, .dispatch q], .ok rows)
    | .error e => ([.audit q, .dispatch q], .error e)

/-- Outcome of a transaction-scoped stream: the driver's rows were
exhausted and the stream completed, or the aborted check threw. -/
inductive StreamOutcome where
  | done
  | abortedError
deriving DecidableEq, Repr

/-- Embeds the loop of transactionalQueryStream (lines 36-41): for each row
pulled from the driver's stream, first check the transaction's aborted flag
(throwing "Transaction aborted" if set), then yield the row.  `abortedAt i`
is the value the mutable flag holds when the i-th row (counting from
`start`) is pulled, so the flag may flip mid-iteration. -/
def transactionalQueryStream (abortedAt : Nat → Bool) (start : Nat) :
    List Row → List Event × StreamOutcome
  | [] => ([], .done)
  | r :: rs =>
    if abortedAt start then ([], .abortedError)
    else
      let rest := transactionalQueryStream abortedAt (start + 1) rs
      (Event.yield r :: rest.1, rest.2)

/-- Embeds TransactionImplementation.queryStream (lines 62-65) composed
with transactionalQueryStream (lines 31-42): the method invokes the audit
hook unconditionally (no aborted check), returns the generator, and on
first pull the generator dispatches the driver's row stream on the
transaction's own connection — no pool acquire and no release. -/
def txQueryStream (abortedAt : Nat → Bool) (q : SQLQuery) (rows : List Row) :
    List Event × StreamOutcome :=
  let s := transactionalQueryStream abortedAt 0 rows
  (Event.audit q :: Event.dispatch q :: s.1, s.2)

theorem transactionalQueryStream_events_yield (abortedAt : Nat → Bool)
    (start : Nat) (rows : List Row) :
    ∀ e ∈ (transactionalQueryStream abortedAt start rows).1, ∃ r, e = Event.yield r := by
  induction rows generalizing start with
  | nil => intro e he; cases he
  | cons r rs ih =>
    intro e he
    by_cases h : abortedAt start
    · simp [transactionalQueryStream, h] at he
    · simp only [transactionalQueryStream, h, if_false, List.mem_cons] at he
      cases he with
      | head => exact ⟨r, rfl⟩
      | tail _ h2 => exact ih (start + 1) e h2

theorem transactionalQueryStream_abort (abortedAt : Nat → Bool)
    (rows : List Row) (i : Nat) :
    ∀ start, i < rows.length → (∀ j, j < i → abortedAt (start + j) = false) →
    abortedAt (start + i) = true →
    transactionalQueryStream abortedAt start rows
      = ((rows.take i).map Event.yield, StreamOutcome.abortedError) := by
  induction rows generalizing i with
  | nil => intro start hi _ _; cases hi
  | cons r rs ih =>
    intro start hi hbefore habort
    cases i with
    | zero =>
      simp only [Nat.add_zero] at habort
      simp [transactionalQueryStream, habort]
    | succ n =>
      have h0 : abortedAt start = false := by
        have := hbefore 0 (Nat.succ_pos n)
        simpa using this
      have hn : n < rs.length := Nat.lt_of_succ_lt_succ (by simpa using hi)
      have hbefore' : ∀ j, j < n → abortedAt (start + 1 + j) = false := by
        intro j hj
        have := hbefore (j + 1) (Nat.succ_lt_succ hj)
        simpa [Nat.add_assoc, Nat.add_comm 1 j] using this
      have habort' : abortedAt (start + 1 + n) = true := by
        simpa [Nat.add_assoc, Nat.add_comm 1 n] using habort
      simp [transactionalQueryStream, h0, ih n (start + 1) hn hbefore' habort',
        List.take_succ_cons]

/-- Outcome of the Promise.race in tx (lines 162-167) between the user
function and the abort-signal listener.  `fnFirst r` means fn settled first
with result r; `abortFirst late` means the abort signal fired first, and
`late` records the value fn would eventually settle with (which the race
discards). -/
inductive RaceOutcome (T : Type) where
  | fnFirst (r : Except Err T)
  | abortFirst (late : Except Err T)

/-- Embeds tx (index.ts lines 154-180).  `fnQueries` are the statements
the user function issues through the transaction-scoped interface before
the race settles; each goes through TransactionImplementation.query with
the freshly constructed transaction (aborted initialised false).  BEGIN,
COMMIT and ROLLBACK are dispatched directly on the raw connection
(connection.query, lines 158/168/172), not through the audit hook.  Any
failure — from BEGIN, the race, fn, or COMMIT — reaches the catch block,
which attempts ROLLBACK, swallows a ROLLBACK failure, and rethrows the
original error; the finally block releases the pool connection on every
path.  `userEvents` is the trace contributed by the user function's own
queries, each running through TransactionImplementation.query with the
aborted flag still false. -/
def userEvents (driver : Driver) (fnQueries : List SQLQuery) : List Event :=
  fnQueries.flatMap fun q =>
    ((TransactionImplementation.mk false).query driver q).1

/-- See the comment on userEvents above; this is the body of tx itself
(index.ts lines 154-180). -/
def tx {T : Type} (driver : Driver) (fnQueries : List SQLQuery)
    (race : RaceOutcome T) : List Event × Except Err T :=
  match driver qBEGIN with
  | .error e =>
    ([.acquire, .dispatch qBEGIN, .dispatch qROLLBACK, .release], .error e)
  | .ok _ =>
    let uevs := userEvents driver fnQueries
    match race with
    | .abortFirst _ =>
      ([Event.acquire, Event.dispatch qBEGIN] ++ uevs
          ++ [Event.dispatch qROLLBACK, Event.release],
       .error "Transaction aborted")
    | .fnFirst (.error e) =>
      ([Event.acquire, Event.dispatch qBEGIN] ++ uevs
          ++ [Event.dispatch qROLLBACK, Event.release],
       .error e)
    | .fnFirst (.ok v) =>
      match driver qCOMMIT with
      | .ok _ =>
        ([Event.acquire, Event.dispatch qBEGIN] ++ uevs
            ++ [Event.dispatch qCOMMIT, Event.release],
         .ok v)
      | .error e =>
        ([Event.acquire, Event.dispatch qBEGIN] ++ uevs
            ++ [Event.dispatch qCOMMIT, Event.dispatch qROLLBACK, Event.release],
         .error e)

theorem txQuery_not_aborted (driver : Driver) (q : SQLQuery) :
    (TransactionImplementation.mk false).query driver q
      = ([Event.audit q, Event.dispatch q], driver q) := by
  cases h : driver q <;>
    simp [TransactionImplementation.query, h]

/-- Joint state of one transaction lease: the transaction's aborted flag,
the AbortController attached to the connection (`some b` means attached,
with b recording whether its signal has fired), whether the raw connection
has been disposed, and whether the connection sits in the pool's reusable
set. -/
structure SystemState where
  txAborted : Bool
  controller : Option Bool
  connDisposed : Bool
  inReusableSet : Bool
deriving DecidableEq, Repr

/-- State of a connection freshly leased by tx, after BEGIN succeeded and a
fresh controller was attached (lines 158-161): transaction not aborted,
controller attached and unfired, connection live and checked out. -/
def leasedState : SystemState :=
  { txAborted := false, controller := some false,
    connDisposed := false, inReusableSet := false }

/-- Embeds the onReleaseTimeout hook (index.ts lines 126-133): if a
controller is attached to the connection, abort it (fire its signal); then
dispose the underlying raw connection.  It reads nothing else and writes
nothing else — in particular it never touches the transaction's aborted
flag, and it does not return the connection to the pool. -/
def onReleaseTimeout (s : SystemState) : SystemState :=
  let s1 := match s.controller with
    | some _ => { s with controller := some true }
    | none => s
  { s1 with connDisposed := true }

/-- The operations of this layer that act on a lease's state.
txQueryOp and txStreamStep read the aborted flag but mutate nothing;
releaseTimeout is the pool's onReleaseTimeout hook; releaseOp is
poolConnection.release().  Modelled from the spec: the pool component
itself is an external dependency, and per its contract (spec sections 4.1
and 4.3 step 7) releasing a connection that was already force-closed by a
release-timeout is a no-op — a disposed connection never re-enters the
reusable set. -/
inductive LayerOp where
  | txQueryOp (q : SQLQuery)
  | txStreamStep
  | releaseTimeout
  | releaseOp
deriving DecidableEq, Repr

/-- State transition of each layer operation. -/
def applyOp (s : SystemState) : LayerOp → SystemState
  | .txQueryOp _ => s
  | .txStreamStep => s
  | .releaseTimeout => onReleaseTimeout s
  | .releaseOp => if s.connDisposed then s else { s with inReusableSet := true }

theorem onReleaseTimeout_txAborted (s : SystemState) :
    (onReleaseTimeout s).txAborted = s.txAborted := by
  cases h : s.controller <;> simp [onReleaseTimeout, h]

theorem applyOp_txAborted (s : SystemState) (op : LayerOp) :
    (applyOp s op).txAborted = s.txAborted := by
  cases op with
  | txQueryOp q => rfl
  | txStreamStep => rfl
  | releaseTimeout => exact onReleaseTimeout_txAborted s
  | releaseOp =>
    by_cases h : s.connDisposed <;> simp [applyOp, h]

theorem foldl_applyOp_txAborted (s : SystemState) (ops : List LayerOp) :
    (ops.foldl applyOp s).txAborted = s.txAborted := by
  induction ops generalizing s with
  | nil => rfl
  | cons op ops ih => rw [List.foldl_cons, ih, applyOp_txAborted]

theorem applyOp_disposed_invariant (s : SystemState) (op : LayerOp)
    (h : s.connDisposed = true ∧ s.inReusableSet = false) :
    (applyOp s op).connDisposed = true ∧ (applyOp s op).inReusableSet = false := by
  cases op with
  | txQueryOp q => exact h
  | txStreamStep => exact h
  | releaseTimeout =>
    cases hc : s.controller <;>
      simp [applyOp, onReleaseTimeout, hc, h.2]
  | releaseOp => simp [applyOp, h.1, h.2]

theorem foldl_applyOp_disposed (s : SystemState) (ops : List LayerOp)
    (h : s.connDisposed = true ∧ s.inReusableSet = false) :
    (ops.foldl applyOp s).inReusableSet = false := by
  induction ops generalizing s with
  | nil => exact h.2
  | cons op ops ih => exact ih (applyOp s op) (applyOp_disposed_invariant s op h)

/-- A sample user statement used for concrete instantiations. -/
def qSelect : SQLQuery := ⟨"SELECT * FROM t", []⟩

theorem countP_eq_zero_of_yields (p : Event → Bool)
    (hp : ∀ r, p (Event.yield r) = false) (l : List Event)
    (hl : ∀ e ∈ l, ∃ r, e = Event.yield r) : l.countP p = 0 := by
  rw [List.countP_eq_zero]
  intro e he
  rcases hl e he with ⟨r, rfl⟩
  simp [hp]

theorem map_yield_all_yields (rows : List Row) :
    ∀ e ∈ rows.map Event.yield, ∃ r, e = Event.yield r := by
  intro e he
  rcases List.mem_map.mp he with ⟨r, _, hr⟩
  exact ⟨r, hr.symm⟩

theorem userEvents_countP_isAudit (driver : Driver) (qs : List SQLQuery) :
    (userEvents driver qs).countP Event.isAudit = qs.length := by
  induction qs with
  | nil => rfl
  | cons q qs ih =>
    rw [userEvents, List.flatMap_cons, List.countP_append, txQuery_not_aborted]
    rw [userEvents] at ih
    simp [ih, List.countP_cons, Event.isAudit, Nat.add_comm]

theorem userEvents_countP_isDispatch (driver : Driver) (qs : List SQLQuery) :
    (userEvents driver qs).countP Event.isDispatch = qs.length := by
  induction qs with
  | nil => rfl
  | cons q qs ih =>
    rw [userEvents, List.flatMap_cons, List.countP_append, txQuery_not_aborted]
    rw [userEvents] at ih
    simp [ih, List.countP_cons, Event.isDispatch, Nat.add_comm]

/-- C1 counterexample: firing the release-timeout hook on a freshly leased
transaction connection leaves the transaction's aborted flag at false; the
hook does not set it to true as the claim states. -/
theorem onReleaseTimeout_leaves_aborted_false :
    ¬ ((onReleaseTimeout leasedState).txAborted = true) := by decide

/-- C1 (amended): when a release-timeout fires on a leased connection, the
hook fires the cancellation handle attached to the connection and then
closes the underlying raw connection, which no subsequent layer operation
ever returns to the pool's reusable set; the transaction's aborted flag is
not touched and remains false. -/
theorem onReleaseTimeout_spec :
    (onReleaseTimeout leasedState).controller = some true
  ∧ (onReleaseTimeout leasedState).connDisposed = true
  ∧ (onReleaseTimeout leasedState).txAborted = false
  ∧ ∀ ops : List LayerOp,
      (ops.foldl applyOp (onReleaseTimeout leasedState)).inReusableSet = false := by
  refine ⟨rfl, rfl, rfl, fun ops => ?_⟩
  exact foldl_applyOp_disposed _ ops ⟨rfl, rfl⟩

/-- C2 counterexample: a transaction whose user function issues no queries
and returns 0 dispatches two statements to the driver (BEGIN and COMMIT)
while invoking the audit hook zero times, so the audit hook does not run
once per dispatched query when BEGIN/COMMIT/ROLLBACK are included. -/
theorem tx_control_statements_unaudited :
    ((tx (fun _ => Except.ok []) [] (RaceOutcome.fnFirst (Except.ok (0 : Nat)))).1.countP
        Event.isDispatch = 2)
  ∧ ((tx (fun _ => Except.ok []) [] (RaceOutcome.fnFirst (Except.ok (0 : Nat)))).1.countP
        Event.isAudit = 0) := by decide

/-- C2 (amended): the audit hook runs exactly once per user-initiated query
dispatch — one-shot queries, pool-level streams, transaction-scoped queries
and transaction-scoped streams each produce exactly one audit and one
dispatch — but the internally issued BEGIN, COMMIT and ROLLBACK statements
of a transaction are dispatched directly on the raw connection and are not
audited: a transaction whose BEGIN succeeds audits exactly one event per
user query while dispatching at least two statements more than it audits. -/
theorem audit_once_per_user_dispatch :
    (∀ (driver : Driver) (q : SQLQuery),
        (oneShotQuery driver q).1.countP Event.isAudit = 1
      ∧ (oneShotQuery driver q).1.countP Event.isDispatch = 1)
  ∧ (∀ (q : SQLQuery) (rows : List Row) (mode : ExitMode),
        (poolQueryStream q rows mode).1.countP Event.isAudit = 1
      ∧ (poolQueryStream q rows mode).1.countP Event.isDispatch = 1)
  ∧ (∀ (driver : Driver) (q : SQLQuery),
        ((TransactionImplementation.mk false).query driver q).1.countP Event.isAudit = 1
      ∧ ((TransactionImplementation.mk false).query driver q).1.countP Event.isDispatch = 1)
  ∧ (∀ (abortedAt : Nat → Bool) (q : SQLQuery) (rows : List Row),
        (txQueryStream abortedAt q rows).1.countP Event.isAudit = 1
      ∧ (txQueryStream abortedAt q rows).1.countP Event.isDispatch = 1)
  ∧ (∀ (T : Type) (driver : Driver) (qs : List SQLQuery) (race : RaceOutcome T)
        (r : List Row), driver qBEGIN = Except.ok r →
        (tx driver qs race).1.countP Event.isAudit = qs.length
      ∧ (tx driver qs race).1.countP Event.isDispatch ≥ qs.length + 2) := by
  refine ⟨?_, ?_, ?_, ?_, ?_⟩
  · intro driver q
    cases h : driver q <;>
      simp [oneShotQuery, h, List.countP_cons, Event.isAudit, Event.isDispatch]
  · intro q rows mode
    have hy1 := countP_eq_zero_of_yields Event.isAudit (fun r => rfl)
      ((consumed rows mode).map Event.yield) (map_yield_all_yields _)
    have hy2 := countP_eq_zero_of_yields Event.isDispatch (fun r => rfl)
      ((consumed rows mode).map Event.yield) (map_yield_all_yields _)
    constructor <;>
      simp [poolQueryStream, List.countP_append, hy1, hy2, List.countP_cons,
        Event.isAudit, Event.isDispatch]
  · intro driver q
    rw [txQuery_not_aborted]
    constructor <;> simp [List.countP_cons, Event.isAudit, Event.isDispatch]
  · intro abortedAt q rows
    have hy1 := countP_eq_zero_of_yields Event.isAudit (fun r => rfl)
      (transactionalQueryStream abortedAt 0 rows).1
      (transactionalQueryStream_events_yield abortedAt 0 rows)
    have hy2 := countP_eq_zero_of_yields Event.isDispatch (fun r => rfl)
      (transactionalQueryStream abortedAt 0 rows).1
      (transactionalQueryStream_events_yield abortedAt 0 rows)
    constructor <;>
      simp [txQueryStream, List.countP_cons, hy1, hy2, Event.isAudit, Event.isDispatch]
  · intro T driver qs race r hb
    have ha := userEvents_countP_isAudit driver qs
    have hd := userEvents_countP_isDispatch driver qs
    cases race with
    | abortFirst late =>
      constructor <;>
        simp [tx, hb, List.countP_append, List.countP_cons, ha, hd,
          Event.isAudit, Event.isDispatch, Nat.add_comm] <;> omega
    | fnFirst res =>
      cases res with
      | error e =>
        constructor <;>
          simp [tx, hb, List.countP_append, List.countP_cons, ha, hd,
            Event.isAudit, Event.isDispatch, Nat.add_comm] <;> omega
      | ok v =>
        cases hc : driver qCOMMIT with
        | ok r2 =>
          constructor <;>
            simp [tx, hb, hc, List.countP_append, List.countP_cons, ha, hd,
              Event.isAudit, Event.isDispatch, Nat.add_comm] <;> omega
        | error e =>
          constructor <;>
            simp [tx, hb, hc, List.countP_append, List.countP_cons, ha, hd,
              Event.isAudit, Event.isDispatch, Nat.add_comm]

/-- Witness for the amended C2 at a concrete transaction with one user
query: one audit, at least three dispatches. -/
theorem audit_once_per_user_dispatch_witness :
    ((tx (fun _ => Except.ok []) [qSelect]
        (RaceOutcome.fnFirst (Except.ok (0 : Nat)))).1.countP Event.isAudit = 1)
  ∧ ((tx (fun _ => Except.ok []) [qSelect]
        (RaceOutcome.fnFirst (Except.ok (0 : Nat)))).1.countP Event.isDispatch ≥ 3) := by
  have h := audit_once_per_user_dispatch.2.2.2.2 Nat (fun _ => Except.ok [])
    [qSelect] (RaceOutcome.fnFirst (Except.ok 0)) [] rfl
  exact ⟨by simpa using h.1, by simpa using h.2⟩

/-- C3 counterexample: a queryStream call made through the transaction
interface while the aborted flag is constantly true does not fail
immediately, and it does dispatch to the driver: with a zero-row driver
result the stream audits, dispatches, and completes without any error. -/
theorem txQueryStream_aborted_still_dispatches :
    (txQueryStream (fun _ => true) qSelect []).2 = StreamOutcome.done
  ∧ Event.dispatch qSelect ∈ (txQueryStream (fun _ => true) qSelect []).1 := by
  decide

/-- C3 (amended): a transaction-scoped `query` call made while the aborted
flag is true fails immediately with "Transaction aborted" and dispatches
nothing; a transaction-scoped `queryStream` call, however, audits and
dispatches regardless of the flag, and raises "Transaction aborted" only
before yielding a row: a stream whose driver returns at least one row fails
without yielding anything, while a zero-row stream completes with no error
at all. -/
theorem tx_interface_aborted_behavior :
    (∀ (driver : Driver) (q : SQLQuery),
        (TransactionImplementation.mk true).query driver q
          = ([], Except.error "Transaction aborted"))
  ∧ (∀ (q : SQLQuery) (rows : List Row),
        (txQueryStream (fun _ => true) q rows).1.take 2
          = [Event.audit q, Event.dispatch q])
  ∧ (∀ (q : SQLQuery) (rows : List Row), rows ≠ [] →
        txQueryStream (fun _ => true) q rows
          = ([Event.audit q, Event.dispatch q], StreamOutcome.abortedError))
  ∧ (∀ q : SQLQuery,
        (txQueryStream (fun _ => true) q []).2 = StreamOutcome.done) := by
  refine ⟨?_, ?_, ?_, fun q => rfl⟩
  · intro driver q
    simp [TransactionImplementation.query]
  · intro q rows
    cases rows <;> simp [txQueryStream, transactionalQueryStream]
  · intro q rows hrows
    cases rows with
    | nil => exact absurd rfl hrows
    | cons r rs => simp [txQueryStream, transactionalQueryStream]

/-- Witness for the amended C3 at a one-row stream with the flag set. -/
theorem tx_interface_aborted_behavior_witness :
    txQueryStream (fun _ => true) qSelect [[1]]
      = ([Event.audit qSelect, Event.dispatch qSelect], StreamOutcome.abortedError) :=
  tx_interface_aborted_behavior.2.2.1 qSelect [[1]] (by decide)

/-- C4: on every failure path of tx — the user function throwing, the abort
race firing, BEGIN failing, or COMMIT failing — exactly one ROLLBACK is
dispatched on the same connection after the failure, and the original
failure is the propagated result.  The driver is universally quantified, so
the conclusion holds in particular for drivers that fail the ROLLBACK
itself: that secondary failure never changes the outcome. -/
theorem tx_rollback_on_failure (T : Type) (driver : Driver)
    (qs : List SQLQuery) (e : Err) :
    ((∃ r, driver qBEGIN = Except.ok r) →
        tx driver qs (RaceOutcome.fnFirst (Except.error e))
          = ([Event.acquire, Event.dispatch qBEGIN] ++ userEvents driver qs
              ++ [Event.dispatch qROLLBACK, Event.release],
             (Except.error e : Except Err T)))
  ∧ (∀ late : Except Err T, (∃ r, driver qBEGIN = Except.ok r) →
        tx driver qs (RaceOutcome.abortFirst late)
          = ([Event.acquire, Event.dispatch qBEGIN] ++ userEvents driver qs
              ++ [Event.dispatch qROLLBACK, Event.release],
             Except.error "Transaction aborted"))
  ∧ (driver qBEGIN = Except.error e → ∀ race : RaceOutcome T,
        tx driver qs race
          = ([Event.acquire, Event.dispatch qBEGIN, Event.dispatch qROLLBACK,
              Event.release], Except.error e))
  ∧ (∀ v : T, (∃ r, driver qBEGIN = Except.ok r) →
        driver qCOMMIT = Except.error e →
        tx driver qs (RaceOutcome.fnFirst (Except.ok v))
          = ([Event.acquire, Event.dispatch qBEGIN] ++ userEvents driver qs
              ++ [Event.dispatch qCOMMIT, Event.dispatch qROLLBACK, Event.release],
             Except.error e)) := by
  refine ⟨?_, ?_, ?_, ?_⟩
  · rintro ⟨r, hb⟩
    simp [tx, hb]
  · rintro late ⟨r, hb⟩
    simp [tx, hb]
  · intro hb race
    simp [tx, hb]
  · rintro v ⟨r, hb⟩ hc
    simp [tx, hb, hc]

/-- Witness for C4: a driver whose ROLLBACK itself fails still propagates
the user function's original error after dispatching the ROLLBACK. -/
theorem tx_rollback_on_failure_witness :
    tx (fun q => if q = qROLLBACK then Except.error "rollback failed"
          else Except.ok []) [] (RaceOutcome.fnFirst (Except.error "boom"))
      = ([Event.acquire, Event.dispatch qBEGIN, Event.dispatch qROLLBACK,
          Event.release], (Except.error "boom" : Except Err Nat)) := by
  have h := (tx_rollback_on_failure Nat
    (fun q => if q = qROLLBACK then Except.error "rollback failed" else Except.ok [])
    [] "boom").1 ⟨[], rfl⟩
  simpa [userEvents] using h

/-- C5: once BEGIN has succeeded, if the abort signal wins the race then tx
fails with "Transaction aborted" whatever the user function's eventual
outcome, and that outcome is discarded with no further effect: the entire
observable behaviour of tx (trace and result) is independent of it. -/
theorem tx_abort_race (T : Type) (driver : Driver) (qs : List SQLQuery)
    (late late' : Except Err T) (h : ∃ r, driver qBEGIN = Except.ok r) :
    (tx driver qs (RaceOutcome.abortFirst late)).2
        = Except.error "Transaction aborted"
  ∧ tx driver qs (RaceOutcome.abortFirst late)
        = tx driver qs (RaceOutcome.abortFirst late') := by
  rcases h with ⟨r, hb⟩
  constructor <;> simp [tx, hb]

/-- Witness for C5 at a trivial driver and two different late outcomes. -/
theorem tx_abort_race_witness :
    (tx (fun _ => Except.ok []) [] (RaceOutcome.abortFirst (Except.ok (0 : Nat)))).2
        = Except.error "Transaction aborted"
  ∧ tx (fun _ => Except.ok []) [] (RaceOutcome.abortFirst (Except.ok (0 : Nat)))
        = tx (fun _ => Except.ok []) [] (RaceOutcome.abortFirst (Except.error "later")) :=
  tx_abort_race Nat (fun _ => Except.ok []) [] (Except.ok 0)
    (Except.error "later") ⟨[], rfl⟩

/-- C7: when the user function settles first with a value and BEGIN and
COMMIT succeed, tx dispatches BEGIN, runs the user queries through the
audited transaction path, dispatches COMMIT, releases the connection back
to the pool as the final event, and returns the user function's value. -/
theorem tx_commit_on_success (T : Type) (driver : Driver) (qs : List SQLQuery)
    (v : T) (hb : ∃ r, driver qBEGIN = Except.ok r)
    (hc : ∃ r, driver qCOMMIT = Except.ok r) :
    tx driver qs (RaceOutcome.fnFirst (Except.ok v))
      = ([Event.acquire, Event.dispatch qBEGIN] ++ userEvents driver qs
          ++ [Event.dispatch qCOMMIT, Event.release], Except.ok v) := by
  rcases hb with ⟨r1, hb⟩
  rcases hc with ⟨r2, hc⟩
  simp [tx, hb, hc]

/-- Witness for C7: a committed transaction with one user query returns the
value 42 with the expected trace. -/
theorem tx_commit_on_success_witness :
    tx (fun _ => Except.ok []) [qSelect] (RaceOutcome.fnFirst (Except.ok (42 : Nat)))
      = ([Event.acquire, Event.dispatch qBEGIN, Event.audit qSelect,
          Event.dispatch qSelect, Event.dispatch qCOMMIT, Event.release],
         Except.ok 42) := by
  have h := tx_commit_on_success Nat (fun _ => Except.ok []) [qSelect]
    (42 : Nat) ⟨[], rfl⟩ ⟨[], rfl⟩
  simpa [userEvents, TransactionImplementation.query] using h

/-- C9: a transaction-scoped stream acquires and releases no pool
connection — its trace contains no acquire and no release event — and it
checks the aborted flag before yielding each row: if the flag first becomes
true when the i-th row is pulled while rows remain (i < rows.length), the
stream yields exactly the first i rows and then raises "Transaction
aborted" instead of yielding the still-buffered rest. -/
theorem txQueryStream_no_pool_and_abort_check (abortedAt : Nat → Bool)
    (q : SQLQuery) (rows : List Row) :
    (Event.acquire ∉ (txQueryStream abortedAt q rows).1
      ∧ Event.release ∉ (txQueryStream abortedAt q rows).1)
  ∧ (∀ i, i < rows.length → (∀ j, j < i → abortedAt j = false) →
        abortedAt i = true →
        txQueryStream abortedAt q rows
          = ([Event.audit q, Event.dispatch q] ++ (rows.take i).map Event.yield,
             StreamOutcome.abortedError)) := by
  constructor
  · constructor
    · intro hmem
      simp only [txQueryStream, List.mem_cons] at hmem
      rcases hmem with h1 | h1 | h1
      · cases h1
      · cases h1
      · rcases transactionalQueryStream_events_yield abortedAt 0 rows _ h1 with ⟨r, hr⟩
        cases hr
    · intro hmem
      simp only [txQueryStream, List.mem_cons] at hmem
      rcases hmem with h1 | h1 | h1
      · cases h1
      · cases h1
      · rcases transactionalQueryStream_events_yield abortedAt 0 rows _ h1 with ⟨r, hr⟩
        cases hr
  · intro i hi hbefore habort
    have h := transactionalQueryStream_abort abortedAt rows i 0 hi
      (by intro j hj; simpa using hbefore j hj) (by simpa using habort)
    simp [txQueryStream, h]

/-- Witness for C9: the flag flips to true when the second row (index 1) is
pulled, so a three-row stream yields one row and then aborts. -/
theorem txQueryStream_no_pool_and_abort_check_witness :
    txQueryStream (fun n => decide (1 ≤ n)) qSelect [[10], [20], [30]]
      = ([Event.audit qSelect, Event.dispatch qSelect, Event.yield [10]],
         StreamOutcome.abortedError) := by
  have h := (txQueryStream_no_pool_and_abort_check (fun n => decide (1 ≤ n))
    qSelect [[10], [20], [30]]).2 1 (by decide) (by decide) (by decide)
  simpa using h

/-- The aborted-flag value of a reachable lease state: the flag of any
state reached from a fresh lease by a sequence of layer operations. -/
def reachableFlag (ops : List LayerOp) : Bool :=
  (ops.foldl applyOp leasedState).txAborted

/-- Errors the transaction-scoped interface can hand to the user function
when every flag value it observes comes from a reachable lease state: a
driver error propagated by a dispatched query, the aborted guard of the
transaction-scoped query firing (the empty-trace immediate failure of
lines 55-57), or the aborted guard of the transaction-scoped stream firing
(the throw of lines 37-39) on a schedule of reachable flag values. -/
def interfaceError (driver : Driver) (e : Err) : Prop :=
  (∃ q, driver q = Except.error e)
  ∨ (∃ (ops : List LayerOp) (q : SQLQuery),
      e = "Transaction aborted"
      ∧ (TransactionImplementation.mk (reachableFlag ops)).query driver q
          = ([], Except.error "Transaction aborted"))
  ∨ (∃ (opsAt : Nat → List LayerOp) (q : SQLQuery) (rows : List Row),
      e = "Transaction aborted"
      ∧ (txQueryStream (fun i => reachableFlag (opsAt i)) q rows).2
          = StreamOutcome.abortedError)

theorem transactionalQueryStream_no_abort (abortedAt : Nat → Bool)
    (h : ∀ i, abortedAt i = false) (rows : List Row) :
    ∀ start, transactionalQueryStream abortedAt start rows
      = (rows.map Event.yield, StreamOutcome.done) := by
  induction rows with
  | nil => intro start; rfl
  | cons r rs ih =>
    intro start
    simp [transactionalQueryStream, h start, ih (start + 1)]

theorem txQueryStream_reachable (opsAt : Nat → List LayerOp) (q : SQLQuery)
    (rows : List Row) :
    txQueryStream (fun i => reachableFlag (opsAt i)) q rows
      = (Event.audit q :: Event.dispatch q :: rows.map Event.yield,
         StreamOutcome.done) := by
  have hfalse : ∀ i, reachableFlag (opsAt i) = false := fun i =>
    foldl_applyOp_txAborted leasedState (opsAt i)
  simp [txQueryStream, transactionalQueryStream_no_abort _ hfalse rows 0]

/-- C10: no operation of this layer ever sets a transaction's aborted flag:
from a fresh lease every sequence of layer operations leaves txAborted
false; the release-timeout hook preserves the flag on every state (it only
aborts the controller and disposes the connection); the aborted guard of
the transaction-scoped query never fires on a reachable state (the call
always audits and dispatches); the aborted guard of the transaction-scoped
stream never fires when its flag values come from reachable states (the
stream yields every row and completes); and a "Transaction aborted"
failure of tx can only originate from the abort race, given a driver that
does not fabricate that message and a user function whose settled error
originates from the transaction interface at reachable states — both guard
origins are refuted, leaving only the race. -/
theorem aborted_flag_never_set :
    (∀ ops : List LayerOp, (ops.foldl applyOp leasedState).txAborted = false)
  ∧ (∀ s : SystemState, (onReleaseTimeout s).txAborted = s.txAborted)
  ∧ (∀ (ops : List LayerOp) (driver : Driver) (q : SQLQuery),
        (TransactionImplementation.mk (reachableFlag ops)).query driver q
          = ([Event.audit q, Event.dispatch q], driver q))
  ∧ (∀ (opsAt : Nat → List LayerOp) (q : SQLQuery) (rows : List Row),
        txQueryStream (fun i => reachableFlag (opsAt i)) q rows
          = (Event.audit q :: Event.dispatch q :: rows.map Event.yield,
             StreamOutcome.done))
  ∧ (∀ (T : Type) (driver : Driver) (qs : List SQLQuery) (race : RaceOutcome T),
        (∀ q, driver q ≠ Except.error "Transaction aborted") →
        (∀ e, race = RaceOutcome.fnFirst (Except.error e) → interfaceError driver e) →
        (tx driver qs race).2 = Except.error "Transaction aborted" →
        ∃ late, race = RaceOutcome.abortFirst late) := by
  refine ⟨?_, onReleaseTimeout_txAborted, ?_, txQueryStream_reachable, ?_⟩
  · intro ops
    exact foldl_applyOp_txAborted leasedState ops
  · intro ops driver q
    rw [reachableFlag, foldl_applyOp_txAborted]
    exact txQuery_not_aborted driver q
  · intro T driver qs race hdriver hfn hres
    cases hb : driver qBEGIN with
    | error e =>
      rw [show (tx driver qs race).2 = Except.error e by simp [tx, hb]] at hres
      exact absurd (hb.trans (by injection hres with h; rw [h]))
        (hdriver qBEGIN)
    | ok r =>
      cases race with
      | abortFirst late => exact ⟨late, rfl⟩
      | fnFirst res =>
        cases res with
        | error e =>
          rw [show (tx driver qs (RaceOutcome.fnFirst (Except.error e))).2
              = Except.error e by simp [tx, hb]] at hres
          have he : e = "Transaction aborted" := by injection hres
          rcases hfn e rfl with hdrv | ⟨ops, q, _, hguard⟩ | ⟨opsAt, q, rows, _, hguard⟩
          · rcases hdrv with ⟨q, hq⟩
            exact absurd (hq.trans (by rw [he])) (hdriver q)
          · rw [show reachableFlag ops = false from
                foldl_applyOp_txAborted leasedState ops,
              txQuery_not_aborted] at hguard
            simp at hguard
          · rw [txQueryStream_reachable] at hguard
            simp at hguard
        | ok v =>
          cases hc : driver qCOMMIT with
          | ok r2 =>
            rw [show (tx driver qs (RaceOutcome.fnFirst (Except.ok v))).2
                = Except.ok v by simp [tx, hb, hc]] at hres
            cases hres
          | error e =>
            rw [show (tx driver qs (RaceOutcome.fnFirst (Except.ok v))).2
                = Except.error e by simp [tx, hb, hc]] at hres
            exact absurd (hc.trans (by injection hres with h; rw [h]))
              (hdriver qCOMMIT)

/-- Witness for C10 at concrete inputs: a release-timeout followed by a
release leaves the flag false, a one-row stream over a reachable flag
schedule yields its row and completes, and a "Transaction aborted" result
at a benign driver forces the race to be abortFirst. -/
theorem aborted_flag_never_set_witness :
    ([LayerOp.releaseTimeout, LayerOp.releaseOp].foldl applyOp leasedState).txAborted
        = false
  ∧ txQueryStream (fun _ => reachableFlag [LayerOp.releaseTimeout]) qSelect [[7]]
      = ([Event.audit qSelect, Event.dispatch qSelect, Event.yield [7]],
         StreamOutcome.done)
  ∧ (∃ late, (RaceOutcome.abortFirst (Except.ok (0 : Nat)))
        = RaceOutcome.abortFirst late) := by
  refine ⟨aborted_flag_never_set.1 [LayerOp.releaseTimeout, LayerOp.releaseOp], ?_, ?_⟩
  · have h := aborted_flag_never_set.2.2.2.1
      (fun _ => [LayerOp.releaseTimeout]) qSelect [[7]]
    simpa using h
  · exact aborted_flag_never_set.2.2.2.2 Nat (fun _ => Except.ok []) []
      (RaceOutcome.abortFirst (Except.ok 0))
      (fun q h => by cases h) (fun e h => by cases h) rfl

end SqlitePool
